import Mathlib

/-!
Verification of the JWT authentication and role-authorization middleware of the
Journal image service, shallowly embedded from src/middleware/auth.js.

The middleware file is the only part of the repository with a non-trivial
contract.  Its pure request-level behaviour (header extraction, identity
construction, role gating, response selection) is translated directly from the
JavaScript source.  The jsonwebtoken verification routine and the jwks-rsa key
cache are external library collaborators whose code is not part of the
repository; they are modelled from the specification, as marked on each such
definition.
-/

namespace ImageAuth

/-! ### JavaScript string primitives used by the middleware -/

/-- Embedding of the JavaScript expression s.split(sep) for a single-character
separator: splits at every occurrence, keeping empty fields, and yields one
(possibly empty) field even on the empty string. -/
def jsSplitAux (sep : Char) : List Char → List Char → List String
  | [], acc => [String.mk acc.reverse]
  | c :: cs, acc =>
    if c = sep then String.mk acc.reverse :: jsSplitAux sep cs []
    else jsSplitAux sep cs (c :: acc)

/-- Embedding of the JavaScript split on a single space, as in
authHeader.split of auth.js line 36. -/
def jsSplitSpace (s : String) : List String := jsSplitAux ' ' s.data []

/-- Embedding of JavaScript toLowerCase on one character (ASCII range, which is
all the role names use). -/
def jsLowerChar (c : Char) : Char :=
  if 65 ≤ c.toNat ∧ c.toNat ≤ 90 then Char.ofNat (c.toNat + 32) else c

/-- Embedding of the JavaScript expression s.toLowerCase() used on role names
in auth.js lines 72 and 73. -/
def jsToLower (s : String) : String := String.mk (s.data.map jsLowerChar)

/-! ### Data model -/

/-- The realm_access claim of a decoded token: its roles list may be absent. -/
structure RealmAccess where
  roles : Option (List String)
deriving Repr, DecidableEq

/-- Decoded JWT payload fields used by the middleware.  Fields the code reads
with optional chaining or that a token may omit are Option-valued. -/
structure TokenPayload where
  sub : Option String
  preferred_username : Option String
  email : Option String
  realm_access : Option RealmAccess
  iss : String
  iat : Nat
  exp : Nat
deriving Repr, DecidableEq

/-- A signed token as seen by the verifier.  Modelled from the spec: token
decoding and cryptographic signature checking live in the jsonwebtoken
library, outside the repository; signature verification is abstracted by
validFor, the unique public key material against which the signature checks
out. -/
structure SignedToken where
  alg : String
  kid : String
  validFor : String
  payload : TokenPayload
deriving Repr, DecidableEq

/-- The JWT verification options object of auth.js lines 26 to 29. -/
structure JwtOptions where
  issuer : String
  algorithms : List String
deriving Repr, DecidableEq

/-- The default Keycloak issuer hard-coded in auth.js line 27. -/
def defaultIssuer : String :=
  "https://patientsystem-keycloak.app.cloud.cbh.kth.se/realms/patientsystem"

/-- jwtOptions of auth.js lines 26 to 29: issuer from the environment with the
Keycloak default, algorithms fixed to the singleton RS256. -/
def jwtOptions (envIssuer : Option String) : JwtOptions :=
  { issuer := envIssuer.getD defaultIssuer, algorithms := ["RS256"] }

/-- Failure cases of the modelled verification pipeline.  keyResolution stands
for the KeyResolutionError of the key resolver, surfaced to jwt.verify through
the getKey callback of auth.js lines 13 to 23. -/
inductive VerifyError where
  | keyResolution
  | badAlgorithm
  | badSignature
  | badIssuer
  | notYetValid
  | expired
deriving Repr, DecidableEq

/-- Verification environment: the resolvable public keys (kid to key
material), the clock, and the clock-skew tolerance of the library. -/
structure VerifyEnv where
  keys : List (String × String)
  now : Nat
  clockTolerance : Nat
deriving Repr, DecidableEq

/-- Modelled from the spec: jwt.verify of the jsonwebtoken library as invoked
in auth.js line 43.  The key for the kid of the token header is resolved
first (the getKey callback); a resolution failure surfaces as an error.  The
declared algorithm must be among the allowed algorithms before any signature
check.  Then the signature is checked against the resolved key, the issuer
claim against the configured issuer, and the current time must lie within the
issuedAt to expiresAt window up to the clock-skew tolerance. -/
def jwtVerify (env : VerifyEnv) (tok : SignedToken) (opts : JwtOptions) :
    Except VerifyError TokenPayload :=
  match env.keys.lookup tok.kid with
  | none => .error .keyResolution
  | some key =>
    if tok.alg ∈ opts.algorithms then
      if key = tok.validFor then
        if tok.payload.iss = opts.issuer then
          if env.now + env.clockTolerance < tok.payload.iat then .error .notYetValid
          else if tok.payload.exp + env.clockTolerance < env.now then .error .expired
          else .ok tok.payload
        else .error .badIssuer
      else .error .badSignature
    else .error .badAlgorithm

/-- The normalized principal the middleware attaches as req.user, built in
auth.js lines 50 to 55. -/
structure Identity where
  id : Option String
  username : Option String
  email : Option String
  roles : List String
deriving Repr, DecidableEq

/-- A JSON error body of a middleware response.  The required and userRoles
fields are present only on the insufficient-permissions response of auth.js
lines 77 to 81. -/
structure JsonError where
  error : String
  required : Option (List String)
  userRoles : Option (List String)
deriving Repr, DecidableEq

/-- Outcome of one express middleware call: either a short-circuiting HTTP
response carrying a status code and a JSON body (res.status(s).json(b) and
return, the downstream handler is not invoked), or a call to next, carrying
the value the middleware contributes to the request context. -/
inductive MwResult (α : Type) where
  | respond (status : Nat) (body : JsonError)
  | next (val : α)
deriving Repr, DecidableEq

/-- Response body of auth.js line 40. -/
def missingTokenBody : JsonError :=
  { error := "Access denied. No token provided.", required := none, userRoles := none }

/-- Response body of auth.js line 46. -/
def invalidTokenBody : JsonError :=
  { error := "Invalid or expired token.", required := none, userRoles := none }

/-- Response body of auth.js lines 69 and 103. -/
def notAuthenticatedBody : JsonError :=
  { error := "Not authenticated", required := none, userRoles := none }

/-- Response body of auth.js lines 77 to 81, disclosing the required roles and
the lower-cased roles of the user. -/
def insufficientBody (required userRoles : List String) : JsonError :=
  { error := "Access denied. Insufficient permissions.",
    required := some required, userRoles := some userRoles }

/-! ### Token authenticator (auth.js lines 34 to 60) -/

/-- Token extraction of auth.js lines 35 to 41 with JavaScript truthiness: the
token is authHeader.split at spaces, index 1; an absent header, an empty
header, a missing second field or an empty second field are all falsy, in
which case the middleware responds 401 before any verification. -/
def extractToken (authHeader : Option String) : Option String :=
  match authHeader with
  | none => none
  | some h =>
    if h = "" then none
    else
      match (jsSplitSpace h)[1]? with
      | none => none
      | some t => if t = "" then none else some t

/-- Construction of req.user from the verified payload, auth.js lines 50 to
55: id from sub, username from preferred_username, email from email, roles
from realm_access roles via optional chaining, defaulting to the empty list. -/
def buildIdentity (decoded : TokenPayload) : Identity :=
  { id := decoded.sub
    username := decoded.preferred_username
    email := decoded.email
    roles := (decoded.realm_access.bind RealmAccess.roles).getD [] }

/-- The authenticateToken middleware of auth.js lines 34 to 60.  The token
decoder dec stands for the parsing step of the jsonwebtoken library: it turns
the raw token string into the structured token jwt.verify inspects, or fails
on a malformed token, which jwt.verify reports as an error (403 here). -/
def authenticateToken (dec : String → Option SignedToken) (env : VerifyEnv)
    (opts : JwtOptions) (authHeader : Option String) : MwResult Identity :=
  match extractToken authHeader with
  | none => .respond 401 missingTokenBody
  | some t =>
    match dec t with
    | none => .respond 403 invalidTokenBody
    | some tok =>
      match jwtVerify env tok opts with
      | .error _ => .respond 403 invalidTokenBody
      | .ok decoded => .next (buildIdentity decoded)

/-! ### Role authorizer (auth.js lines 66 to 106) -/

/-- The requireRole middleware factory of auth.js lines 66 to 86, applied to
the req.user slot of the request.  Absent identity responds 401; otherwise the
user roles are lower-cased and the gate passes exactly when some allowed role,
lower-cased, occurs among them, else it responds 403 with the required and
actual roles disclosed. -/
def requireRole (allowedRoles : List String) (user : Option Identity) :
    MwResult Unit :=
  match user with
  | none => .respond 401 notAuthenticatedBody
  | some u =>
    let userRoles := u.roles.map jsToLower
    let hasRole := allowedRoles.any (fun role => userRoles.contains (jsToLower role))
    if hasRole then .next ()
    else .respond 403 (insufficientBody allowedRoles userRoles)

/-- requireDoctor of auth.js line 91. -/
def requireDoctor : Option Identity → MwResult Unit := requireRole ["doctor"]

/-- requireDoctorOrStaff of auth.js line 96. -/
def requireDoctorOrStaff : Option Identity → MwResult Unit :=
  requireRole ["doctor", "staff"]

/-- The requireAuthenticated middleware of auth.js lines 101 to 106. -/
def requireAuthenticated (user : Option Identity) : MwResult Unit :=
  match user with
  | none => .respond 401 notAuthenticatedBody
  | some _ => .next ()

/-! ### Spec-side definition used to state claim C1 -/

/-- Spec-side definition (for comparison with the code): the Authorization
header has the well-formed shape of the scheme word Bearer followed by a
single space and a non-empty token part. -/
def specBearerWellFormed (authHeader : Option String) : Bool :=
  match authHeader with
  | none => false
  | some h =>
    match jsSplitSpace h with
    | [scheme, t] => scheme == "Bearer" && t != ""
    | _ => false

/-! ### The key resolver cache, modelled from the spec (auth.js lines 5 to 10
configure the jwks-rsa client with cacheMaxEntries 5 and cacheMaxAge 600000
milliseconds; the cache itself lives in the jwks-rsa library, outside the
repository). -/

/-- Modelled from the spec: one entry of the key cache, a signing key tagged
with its kid and its fetch timestamp. -/
structure CacheEntry where
  kid : String
  key : String
  fetchedAt : Nat
deriving Repr, DecidableEq

/-- Modelled from the spec: the bounded, age-limited key cache of the jwks-rsa
client.  Entries are kept in insertion order, oldest first. -/
structure KeyCache where
  entries : List CacheEntry
  maxEntries : Nat
  maxAge : Nat
deriving Repr, DecidableEq

/-- Modelled from the spec: inserting when the cache is at or above capacity
evicts the oldest entry (the head of the insertion-ordered list) before
appending the new entry. -/
def KeyCache.insertKey (c : KeyCache) (e : CacheEntry) : KeyCache :=
  let kept := if c.maxEntries ≤ c.entries.length then c.entries.drop 1 else c.entries
  { c with entries := kept ++ [e] }

/-- Modelled from the spec: cache lookup serves an entry only while its age is
within maxAge of the current time; stale entries are not served. -/
def KeyCache.lookupFresh (c : KeyCache) (now : Nat) (kid : String) :
    Option CacheEntry :=
  match c.entries.find? (fun e => e.kid == kid) with
  | none => none
  | some e => if now ≤ e.fetchedAt + c.maxAge then some e else none

/-- Modelled from the spec: resolveKey returns a fresh cached key without
fetching; otherwise it fetches the remote key set, caches the matching key
with the current timestamp and returns it, or fails with KeyResolutionError
when no entry matches the kid.  The Bool of the result records whether a
network fetch happened. -/
def resolveKey (c : KeyCache) (now : Nat) (keyset : List (String × String))
    (kid : String) : Except Unit (String × KeyCache × Bool) :=
  match c.lookupFresh now kid with
  | some e => .ok (e.key, c, false)
  | none =>
    match keyset.lookup kid with
    | none => .error ()
    | some k => .ok (k, c.insertKey ⟨kid, k, now⟩, true)

/-! ### Concrete fixtures used by witnesses and counterexamples -/

/-- A payload carrying every claim the middleware reads, with a mixed-case
realm role. -/
def goodPayload : TokenPayload :=
  { sub := some "subj1", preferred_username := some "anna",
    email := some "anna1", realm_access := some ⟨some ["Doctor"]⟩,
    iss := defaultIssuer, iat := 0, exp := 2000 }

/-- A token over goodPayload that verifies in goodEnv under jwtOptions none. -/
def goodToken : SignedToken :=
  { alg := "RS256", kid := "k1", validFor := "pub1", payload := goodPayload }

/-- A verification environment that resolves the kid of goodToken and whose
clock sits inside the validity window of goodPayload. -/
def goodEnv : VerifyEnv :=
  { keys := [("k1", "pub1")], now := 1000, clockTolerance := 0 }

/-! ## Helper lemmas -/

/-- Full characterization of successful verification in the model: jwtVerify
returns the payload exactly when the kid resolves to the key the signature
checks out against, the declared algorithm is allowed, the issuer claim
matches, and the clock lies in the validity window up to the tolerance. -/
theorem jwtVerify_ok_iff (env : VerifyEnv) (tok : SignedToken) (opts : JwtOptions)
    (p : TokenPayload) :
    jwtVerify env tok opts = .ok p ↔
      p = tok.payload ∧ env.keys.lookup tok.kid = some tok.validFor ∧
      tok.alg ∈ opts.algorithms ∧ tok.payload.iss = opts.issuer ∧
      ¬ (env.now + env.clockTolerance < tok.payload.iat) ∧
      ¬ (tok.payload.exp + env.clockTolerance < env.now) := by
  unfold jwtVerify
  cases hk : env.keys.lookup tok.kid with
  | none => simp
  | some key =>
    by_cases halg : tok.alg ∈ opts.algorithms
    · by_cases hkey : key = tok.validFor
      · by_cases hiss : tok.payload.iss = opts.issuer
        · by_cases hiat : env.now + env.clockTolerance < tok.payload.iat
          · simp [halg, hkey, hiss, hiat]
          · by_cases hexp : tok.payload.exp + env.clockTolerance < env.now
            · simp [halg, hkey, hiss, hiat, hexp]
            · simp [halg, hkey, hiss, hiat, hexp, eq_comm]
        · simp [halg, hkey, hiss]
      · simp [halg, hkey]
    · simp [halg]

/-! ## Claim theorems -/

/-- Claim C1, counterexample: the claim says that any Authorization header not
of the well-formed shape of Bearer followed by a token, including a wrong
scheme word, makes authenticateToken respond 401 without attempting
verification.  The code only reads the second space-separated field: the
header Basic xyz is not well-formed Bearer, yet the middleware takes xyz as
the token, attempts verification, and responds 403, not 401. -/
theorem bearer_scheme_not_checked_counterexample :
    specBearerWellFormed (some "Basic xyz") = false ∧
    authenticateToken (fun _ => none) ⟨[], 0, 0⟩ (jwtOptions none) (some "Basic xyz")
      = .respond 403 invalidTokenBody :=
  ⟨by decide, by decide⟩

/-- Claim C1, amended: authenticateToken responds 401 with the missing-token
body exactly when the Authorization header is absent, empty, or lacks a
non-empty second space-separated field; the scheme word itself is never
inspected, so a wrong-scheme header with a token part proceeds to
verification instead of being rejected with 401. -/
theorem authenticateToken_401_iff_no_second_field (dec : String → Option SignedToken)
    (env : VerifyEnv) (cfg : Option String) (h : Option String) :
    (authenticateToken dec env (jwtOptions cfg) h = .respond 401 missingTokenBody
      ↔ extractToken h = none) ∧
    (extractToken h = none ↔
      (h = none ∨ h = some "" ∨
        ∃ s, h = some s ∧
          ((jsSplitSpace s)[1]? = none ∨ (jsSplitSpace s)[1]? = some ""))) := by
  constructor
  · constructor
    · intro heq
      cases hx : extractToken h with
      | none => rfl
      | some t =>
        exfalso
        simp only [authenticateToken, hx] at heq
        cases hd : dec t with
        | none => simp [hd] at heq
        | some tok =>
          simp only [hd] at heq
          cases hv : jwtVerify env tok (jwtOptions cfg) with
          | error e => simp [hv] at heq
          | ok p => simp [hv] at heq
    · intro hx
      simp [authenticateToken, hx]
  · cases h with
    | none => simp [extractToken]
    | some s =>
      by_cases hs : s = ""
      · subst hs
        simp [extractToken]
      · simp only [extractToken, if_neg hs]
        cases hg : (jsSplitSpace s)[1]? with
        | none =>
          constructor
          · intro _
            exact Or.inr (Or.inr ⟨s, rfl, Or.inl hg⟩)
          · intro _
            rfl
        | some t =>
          by_cases ht : t = ""
          · subst ht
            simp only [if_pos rfl]
            constructor
            · intro _
              exact Or.inr (Or.inr ⟨s, rfl, Or.inr hg⟩)
            · intro _
              rfl
          · simp only [if_neg ht]
            constructor
            · intro hcon
              exact absurd hcon (by simp)
            · rintro (hnone | hsome | ⟨s2, hs2, hcase⟩)
              · exact absurd hnone (by simp)
              · injection hsome with h2
                exact absurd h2 hs
              · injection hs2 with h2
                subst h2
                rcases hcase with h1 | h1
                · rw [hg] at h1
                  exact absurd h1 (by simp)
                · rw [hg] at h1
                  injection h1 with h3
                  exact absurd h3 ht

/-- Claim C1, witness: a header whose second field is missing is answered 401
with the missing-token body, and the wrong-scheme header with a token part is
not answered with that response. -/
theorem authenticateToken_401_iff_no_second_field_witness :
    authenticateToken (fun _ => some goodToken) goodEnv (jwtOptions none) (some "Bearer")
      = .respond 401 missingTokenBody ∧
    authenticateToken (fun _ => none) ⟨[], 0, 0⟩ (jwtOptions none) (some "Basic xyz")
      ≠ .respond 401 missingTokenBody := by
  constructor
  · exact (authenticateToken_401_iff_no_second_field _ _ none _).1.mpr (by decide)
  · intro hc
    have hx := (authenticateToken_401_iff_no_second_field (fun _ => none) ⟨[], 0, 0⟩ none
      (some "Basic xyz")).1.mp hc
    have hy : extractToken (some "Basic xyz") = some "xyz" := by decide
    rw [hy] at hx
    exact Option.noConfusion hx

/-- Claim C2: requireRole with an attached identity allows the request exactly
when the case-insensitive intersection of the identity roles and the required
roles is non-empty; in particular roles staff against required doctor is
denied with 403 and the required and lower-cased actual roles are disclosed,
while roles doctor and staff against required doctor is allowed. -/
theorem requireRole_allows_iff_role_intersection :
    (∀ (allowed : List String) (u : Identity),
        requireRole allowed (some u) = .next () ↔
          ∃ r ∈ u.roles, ∃ q ∈ allowed, jsToLower r = jsToLower q) ∧
    requireRole ["doctor"] (some ⟨some "u1", none, none, ["staff"]⟩)
      = .respond 403 (insufficientBody ["doctor"] ["staff"]) ∧
    requireRole ["doctor"] (some ⟨some "u1", none, none, ["doctor", "staff"]⟩)
      = .next () := by
  refine ⟨?_, by decide, by decide⟩
  intro allowed u
  have hr : requireRole allowed (some u)
      = if allowed.any (fun role => (u.roles.map jsToLower).contains (jsToLower role))
        then .next ()
        else .respond 403 (insufficientBody allowed (u.roles.map jsToLower)) := rfl
  rw [hr]
  constructor
  · intro hnext
    split at hnext
    · next hb =>
      obtain ⟨q, hq, hcont⟩ := List.any_eq_true.mp hb
      obtain ⟨r, hrmem, hrl⟩ := List.mem_map.mp (List.elem_iff.mp hcont)
      exact ⟨r, hrmem, q, hq, hrl⟩
    · exact absurd hnext (by simp)
  · rintro ⟨r, hrmem, q, hq, heq⟩
    have hb : allowed.any (fun role => (u.roles.map jsToLower).contains (jsToLower role)) = true :=
      List.any_eq_true.mpr ⟨q, hq, List.elem_iff.mpr (List.mem_map.mpr ⟨r, hrmem, heq⟩)⟩
    rw [hb]
    rfl

/-- Claim C2, witness: the intersection criterion instantiated at a
mixed-case role, deriving that a user holding the role Doctor passes the
doctor gate. -/
theorem requireRole_allows_iff_role_intersection_witness :
    requireRole ["doctor"] (some ⟨some "u2", none, none, ["Doctor"]⟩) = .next () :=
  (requireRole_allows_iff_role_intersection.1 ["doctor"] ⟨some "u2", none, none, ["Doctor"]⟩).mpr
    ⟨"Doctor", by decide, "doctor", by decide, by decide⟩

/-- Claim C3, counterexample: the claim says the attached roles are the realm
roles lower-cased.  A verified token carrying the realm role Doctor yields an
attached identity whose roles list is Doctor with its case preserved, which
differs from the lower-cased list. -/
theorem identity_roles_keep_case_counterexample :
    goodPayload.realm_access = some ⟨some ["Doctor"]⟩ ∧
    authenticateToken (fun _ => some goodToken) goodEnv (jwtOptions none) (some "Bearer t")
      = .next ⟨some "subj1", some "anna", some "anna1", ["Doctor"]⟩ ∧
    (["Doctor"] : List String) ≠ ["Doctor"].map jsToLower :=
  ⟨by decide, by decide, by decide⟩

/-- Claim C3, amended: for every successfully verified token the attached
Identity has id equal to the subject, username equal to preferred_username,
email equal to the email claim, and roles equal to the realm roles of the
token exactly as issued (case preserved; lower-casing happens later, in the
role gate), defaulting to the empty list when the realm-role claim is
absent. -/
theorem authenticateToken_identity_fields (dec : String → Option SignedToken)
    (env : VerifyEnv) (cfg : Option String) (h : Option String)
    (t : String) (tok : SignedToken) (p : TokenPayload)
    (hx : extractToken h = some t) (hd : dec t = some tok)
    (hv : jwtVerify env tok (jwtOptions cfg) = .ok p) :
    authenticateToken dec env (jwtOptions cfg) h =
      .next { id := p.sub, username := p.preferred_username, email := p.email,
              roles := (p.realm_access.bind RealmAccess.roles).getD [] } ∧
    ∀ q : TokenPayload, q.realm_access = none → (buildIdentity q).roles = [] := by
  constructor
  · simp [authenticateToken, hx, hd, hv, buildIdentity]
  · intro q hq
    simp [buildIdentity, hq]

/-- Claim C3, witness: the identity field mapping instantiated on the
concrete verified token fixture. -/
theorem authenticateToken_identity_fields_witness :
    authenticateToken (fun _ => some goodToken) goodEnv (jwtOptions none) (some "Bearer t")
      = .next { id := goodPayload.sub, username := goodPayload.preferred_username,
                email := goodPayload.email,
                roles := (goodPayload.realm_access.bind RealmAccess.roles).getD [] } ∧
    ∀ q : TokenPayload, q.realm_access = none → (buildIdentity q).roles = [] :=
  authenticateToken_identity_fields (fun _ => some goodToken) goodEnv none (some "Bearer t")
    "t" goodToken goodPayload (by decide) rfl rfl

/-- Claim C4: the error taxonomy maps to the specified statuses: a missing or
malformed token answers 401 with the missing-token body; every verification
failure, including a key-resolution failure which the model surfaces as a
verification error, answers 403 with the invalid-token body; the
authorization gates reached without identity answer 401 with the
not-authenticated body; an insufficient role answers 403 with a payload
disclosing the required roles and the lower-cased actual roles of the
user. -/
theorem error_status_mapping :
    (∀ (dec : String → Option SignedToken) (env : VerifyEnv) (cfg : Option String)
        (h : Option String), extractToken h = none →
        authenticateToken dec env (jwtOptions cfg) h = .respond 401 missingTokenBody) ∧
    (∀ (dec : String → Option SignedToken) (env : VerifyEnv) (cfg : Option String)
        (h : Option String) (t : String) (tok : SignedToken) (e : VerifyError),
        extractToken h = some t → dec t = some tok →
        jwtVerify env tok (jwtOptions cfg) = .error e →
        authenticateToken dec env (jwtOptions cfg) h = .respond 403 invalidTokenBody) ∧
    (∀ (env : VerifyEnv) (tok : SignedToken) (cfg : Option String),
        env.keys.lookup tok.kid = none →
        jwtVerify env tok (jwtOptions cfg) = .error .keyResolution) ∧
    (∀ allowed : List String,
        requireRole allowed none = .respond 401 notAuthenticatedBody) ∧
    (requireAuthenticated none = .respond 401 notAuthenticatedBody) ∧
    (∀ (allowed : List String) (u : Identity),
        (¬ ∃ r ∈ u.roles, ∃ q ∈ allowed, jsToLower r = jsToLower q) →
        requireRole allowed (some u)
          = .respond 403 (insufficientBody allowed (u.roles.map jsToLower))) := by
  refine ⟨?_, ?_, ?_, fun _ => rfl, rfl, ?_⟩
  · intro dec env cfg h hx
    simp [authenticateToken, hx]
  · intro dec env cfg h t tok e hx hd hv
    simp [authenticateToken, hx, hd, hv]
  · intro env tok cfg hk
    simp [jwtVerify, hk]
  · intro allowed u hno
    cases hb : allowed.any (fun role => (u.roles.map jsToLower).contains (jsToLower role)) with
    | true =>
      exfalso
      obtain ⟨q, hq, hc⟩ := List.any_eq_true.mp hb
      obtain ⟨r, hr, hrl⟩ := List.mem_map.mp (List.elem_iff.mp hc)
      exact hno ⟨r, hr, q, hq, hrl⟩
    | false =>
      have hrw : requireRole allowed (some u)
          = if allowed.any (fun role => (u.roles.map jsToLower).contains (jsToLower role))
            then .next ()
            else .respond 403 (insufficientBody allowed (u.roles.map jsToLower)) := rfl
      rw [hrw, hb]
      rfl

/-- Claim C4, witness: each branch of the status mapping instantiated on a
concrete request. -/
theorem error_status_mapping_witness :
    authenticateToken (fun _ => some goodToken) goodEnv (jwtOptions none) none
      = .respond 401 missingTokenBody ∧
    authenticateToken (fun _ => some goodToken) ⟨[], 0, 0⟩ (jwtOptions none) (some "Bearer t")
      = .respond 403 invalidTokenBody ∧
    jwtVerify ⟨[], 0, 0⟩ goodToken (jwtOptions none) = .error .keyResolution ∧
    requireRole ["doctor"] none = .respond 401 notAuthenticatedBody ∧
    requireAuthenticated none = .respond 401 notAuthenticatedBody ∧
    requireRole ["doctor"] (some ⟨some "u1", none, none, ["staff"]⟩)
      = .respond 403 (insufficientBody ["doctor"] ["staff"]) := by
  refine ⟨?_, ?_, ?_, ?_, ?_, ?_⟩
  · exact error_status_mapping.1 _ _ none none rfl
  · exact error_status_mapping.2.1 _ _ none _ "t" goodToken .keyResolution (by decide) rfl rfl
  · exact error_status_mapping.2.2.1 ⟨[], 0, 0⟩ goodToken none rfl
  · exact error_status_mapping.2.2.2.1 ["doctor"]
  · exact error_status_mapping.2.2.2.2.1
  · exact error_status_mapping.2.2.2.2.2 ["doctor"] ⟨some "u1", none, none, ["staff"]⟩ (by decide)

/-- Claim C5: authenticateToken is all or nothing: it calls the downstream
handler only when extraction, decoding and verification all succeed, in which
case the complete identity built from the verified payload is attached; and
whenever any of those steps fails it short-circuits with an error response,
so no identity is attached and the downstream handler is not invoked. -/
theorem authenticateToken_all_or_nothing (dec : String → Option SignedToken)
    (env : VerifyEnv) (cfg : Option String) (h : Option String) :
    (∀ u : Identity, authenticateToken dec env (jwtOptions cfg) h = .next u →
      ∃ t tok p, extractToken h = some t ∧ dec t = some tok ∧
        jwtVerify env tok (jwtOptions cfg) = .ok p ∧ u = buildIdentity p) ∧
    ((extractToken h = none ∨ (∃ t, extractToken h = some t ∧ dec t = none) ∨
        (∃ t tok e, extractToken h = some t ∧ dec t = some tok ∧
          jwtVerify env tok (jwtOptions cfg) = .error e)) →
      ∃ s b, authenticateToken dec env (jwtOptions cfg) h = .respond s b) := by
  constructor
  · intro u heq
    cases hx : extractToken h with
    | none => simp [authenticateToken, hx] at heq
    | some t =>
      cases hd : dec t with
      | none => simp [authenticateToken, hx, hd] at heq
      | some tok =>
        cases hv : jwtVerify env tok (jwtOptions cfg) with
        | error e => simp [authenticateToken, hx, hd, hv] at heq
        | ok p =>
          refine ⟨t, tok, p, rfl, hd, hv, ?_⟩
          simp [authenticateToken, hx, hd, hv] at heq
          exact heq.symm
  · rintro (hx | ⟨t, hx, hd⟩ | ⟨t, tok, e, hx, hd, hv⟩)
    · exact ⟨401, missingTokenBody, by simp [authenticateToken, hx]⟩
    · exact ⟨403, invalidTokenBody, by simp [authenticateToken, hx, hd]⟩
    · exact ⟨403, invalidTokenBody, by simp [authenticateToken, hx, hd, hv]⟩

/-- Claim C5, witness: the success direction on the verified fixture and the
failure direction on a request without an Authorization header. -/
theorem authenticateToken_all_or_nothing_witness :
    (∃ t tok p, extractToken (some "Bearer t") = some t ∧
      (fun _ : String => some goodToken) t = some tok ∧
      jwtVerify goodEnv tok (jwtOptions none) = .ok p ∧
      buildIdentity goodPayload = buildIdentity p) ∧
    (∃ s b, authenticateToken (fun _ => some goodToken) goodEnv (jwtOptions none) none
      = .respond s b) := by
  constructor
  · exact (authenticateToken_all_or_nothing (fun _ => some goodToken) goodEnv none
      (some "Bearer t")).1 (buildIdentity goodPayload) (by decide)
  · exact (authenticateToken_all_or_nothing (fun _ => some goodToken) goodEnv none
      none).2 (Or.inl rfl)

/-- Claim C6: the configured verification options fix the algorithm list to
the singleton RS256; a token declaring any other algorithm is rejected before
any signature comparison (the error is the algorithm error whenever its key
resolves, irrespective of the signature), and the middleware answers such a
token with 403 and the invalid-token body. -/
theorem rs256_only (dec : String → Option SignedToken) (env : VerifyEnv)
    (cfg : Option String) (h : Option String) (t : String) (tok : SignedToken) :
    ((jwtOptions cfg).algorithms = ["RS256"]) ∧
    (tok.alg ≠ "RS256" → ∀ key, env.keys.lookup tok.kid = some key →
        jwtVerify env tok (jwtOptions cfg) = .error .badAlgorithm) ∧
    (tok.alg ≠ "RS256" → extractToken h = some t → dec t = some tok →
        authenticateToken dec env (jwtOptions cfg) h = .respond 403 invalidTokenBody) := by
  refine ⟨rfl, ?_, ?_⟩
  · intro ha key hk
    simp [jwtVerify, hk, jwtOptions, ha]
  · intro ha hx hd
    cases hk : env.keys.lookup tok.kid with
    | none => simp [authenticateToken, hx, hd, jwtVerify, hk]
    | some key => simp [authenticateToken, hx, hd, jwtVerify, hk, jwtOptions, ha]

/-- Claim C6, witness: a token declaring HS256 over an otherwise valid
payload and resolvable key is rejected with the algorithm error and answered
403. -/
theorem rs256_only_witness :
    jwtVerify goodEnv ⟨"HS256", "k1", "pub1", goodPayload⟩ (jwtOptions none)
      = .error .badAlgorithm ∧
    authenticateToken (fun _ => some ⟨"HS256", "k1", "pub1", goodPayload⟩) goodEnv
      (jwtOptions none) (some "Bearer t") = .respond 403 invalidTokenBody := by
  constructor
  · exact (rs256_only (fun _ => some ⟨"HS256", "k1", "pub1", goodPayload⟩) goodEnv none
      (some "Bearer t") "t" ⟨"HS256", "k1", "pub1", goodPayload⟩).2.1 (by decide) "pub1" rfl
  · exact (rs256_only (fun _ => some ⟨"HS256", "k1", "pub1", goodPayload⟩) goodEnv none
      (some "Bearer t") "t" ⟨"HS256", "k1", "pub1", goodPayload⟩).2.2 (by decide) (by decide) rfl

/-- Claim C7: verification succeeds only if the issuer claim equals the
configured expected issuer and the clock lies within the issuedAt to
expiresAt window up to the clock-skew tolerance; a token whose expiry is in
the past at the fixed clock, and a token with a mismatched issuer, are both
answered 403 with the invalid-token body. -/
theorem claims_validation (env : VerifyEnv) (cfg : Option String) (tok : SignedToken) :
    (∀ p, jwtVerify env tok (jwtOptions cfg) = .ok p →
        tok.payload.iss = (jwtOptions cfg).issuer ∧
        tok.payload.iat ≤ env.now + env.clockTolerance ∧
        env.now ≤ tok.payload.exp + env.clockTolerance) ∧
    (∀ (dec : String → Option SignedToken) (h : Option String) (t : String),
        tok.payload.exp + env.clockTolerance < env.now →
        extractToken h = some t → dec t = some tok →
        authenticateToken dec env (jwtOptions cfg) h = .respond 403 invalidTokenBody) ∧
    (∀ (dec : String → Option SignedToken) (h : Option String) (t : String),
        tok.payload.iss ≠ (jwtOptions cfg).issuer →
        extractToken h = some t → dec t = some tok →
        authenticateToken dec env (jwtOptions cfg) h = .respond 403 invalidTokenBody) := by
  refine ⟨?_, ?_, ?_⟩
  · intro p hok
    obtain ⟨-, -, -, hiss, hiat, hexp⟩ := (jwtVerify_ok_iff env tok (jwtOptions cfg) p).mp hok
    exact ⟨hiss, by omega, by omega⟩
  · intro dec h t hc hx hd
    cases hv : jwtVerify env tok (jwtOptions cfg) with
    | error e => simp [authenticateToken, hx, hd, hv]
    | ok p =>
      obtain ⟨-, -, -, -, -, hexp⟩ := (jwtVerify_ok_iff env tok (jwtOptions cfg) p).mp hv
      exact absurd hc hexp
  · intro dec h t hc hx hd
    cases hv : jwtVerify env tok (jwtOptions cfg) with
    | error e => simp [authenticateToken, hx, hd, hv]
    | ok p =>
      obtain ⟨-, -, -, hiss, -, -⟩ := (jwtVerify_ok_iff env tok (jwtOptions cfg) p).mp hv
      exact absurd hiss hc

/-- Claim C7, witness: the verified fixture satisfies the issuer and window
conditions; the same token at a later clock is answered 403, as is a token
with a mismatched issuer at the original clock. -/
theorem claims_validation_witness :
    (goodPayload.iss = (jwtOptions none).issuer ∧
      goodPayload.iat ≤ goodEnv.now + goodEnv.clockTolerance ∧
      goodEnv.now ≤ goodPayload.exp + goodEnv.clockTolerance) ∧
    authenticateToken (fun _ => some goodToken) ⟨[("k1", "pub1")], 5000, 0⟩
      (jwtOptions none) (some "Bearer t") = .respond 403 invalidTokenBody ∧
    authenticateToken (fun _ => some ⟨"RS256", "k1", "pub1",
        { goodPayload with iss := "other" }⟩) goodEnv
      (jwtOptions none) (some "Bearer t") = .respond 403 invalidTokenBody := by
  refine ⟨?_, ?_, ?_⟩
  · exact (claims_validation goodEnv none goodToken).1 goodPayload rfl
  · exact (claims_validation ⟨[("k1", "pub1")], 5000, 0⟩ none goodToken).2.1
      (fun _ => some goodToken) (some "Bearer t") "t" (by decide) (by decide) rfl
  · exact (claims_validation goodEnv none ⟨"RS256", "k1", "pub1",
      { goodPayload with iss := "other" }⟩).2.2
      (fun _ => some ⟨"RS256", "k1", "pub1", { goodPayload with iss := "other" }⟩)
      (some "Bearer t") "t" (by decide) (by decide) rfl

/-- Claim C8: the key cache never exceeds the configured maximum number of
entries, inserting at capacity evicts exactly the oldest entry before adding
the new one, and a stale entry is never served: lookup only returns entries
within the maximum age, and when every cached entry is stale any successful
resolution performed a fetch. -/
theorem keyCache_bounded_and_fresh :
    (∀ (c : KeyCache) (e : CacheEntry), 0 < c.maxEntries →
        c.entries.length ≤ c.maxEntries →
        (c.insertKey e).entries.length ≤ c.maxEntries) ∧
    (∀ (c : KeyCache) (e : CacheEntry), 0 < c.maxEntries →
        c.entries.length = c.maxEntries →
        (c.insertKey e).entries = c.entries.drop 1 ++ [e] ∧
        (c.insertKey e).entries.length = c.maxEntries) ∧
    (∀ (c : KeyCache) (now : Nat) (kid : String) (e : CacheEntry),
        c.lookupFresh now kid = some e → now ≤ e.fetchedAt + c.maxAge) ∧
    (∀ (c : KeyCache) (now : Nat) (keyset : List (String × String)) (kid : String),
        (∀ e ∈ c.entries, e.fetchedAt + c.maxAge < now) →
        ∀ k c2 f, resolveKey c now keyset kid = .ok (k, c2, f) → f = true) := by
  refine ⟨?_, ?_, ?_, ?_⟩
  · intro c e hpos hle
    simp only [KeyCache.insertKey, List.length_append]
    split
    · next hge =>
      simp only [List.length_drop, List.length_singleton]
      omega
    · next hlt =>
      simp only [List.length_singleton]
      omega
  · intro c e hpos heq
    have hge : c.maxEntries ≤ c.entries.length := le_of_eq heq.symm
    constructor
    · simp only [KeyCache.insertKey, if_pos hge]
    · simp only [KeyCache.insertKey, if_pos hge, List.length_append, List.length_drop,
        List.length_singleton]
      omega
  · intro c now kid e hf
    unfold KeyCache.lookupFresh at hf
    split at hf
    · exact absurd hf (by simp)
    · split at hf
      · next hfresh =>
        injection hf with h2
        subst h2
        exact hfresh
      · exact absurd hf (by simp)
  · intro c now keyset kid hstale k c2 f hres
    have hnone : c.lookupFresh now kid = none := by
      unfold KeyCache.lookupFresh
      cases hfind : c.entries.find? (fun x => x.kid == kid) with
      | none => rfl
      | some e1 =>
        have hmem : e1 ∈ c.entries := List.mem_of_find?_eq_some hfind
        have hst := hstale e1 hmem
        show (if now ≤ e1.fetchedAt + c.maxAge then some e1 else none) = none
        rw [if_neg (by omega)]
    unfold resolveKey at hres
    rw [hnone] at hres
    cases hks : keyset.lookup kid with
    | none =>
      rw [hks] at hres
      exact absurd hres (by simp)
    | some kv =>
      rw [hks] at hres
      injection hres with h2
      have h3 := congrArg (fun x => x.2.2) h2
      simpa using h3.symm

/-- Claim C8, witness: on a one-entry cache at capacity the insert keeps the
size at one and replaces the oldest entry; a fresh entry is served within its
age bound; and a resolution over a fully stale cache reports a fetch. -/
theorem keyCache_bounded_and_fresh_witness :
    ((⟨[⟨"k1", "p1", 0⟩], 1, 10⟩ : KeyCache).insertKey ⟨"k2", "p2", 5⟩).entries.length ≤ 1 ∧
    ((⟨[⟨"k1", "p1", 0⟩], 1, 10⟩ : KeyCache).insertKey ⟨"k2", "p2", 5⟩).entries
      = [⟨"k1", "p1", 0⟩].drop 1 ++ [⟨"k2", "p2", 5⟩] ∧
    (100 : Nat) ≤ 95 + 10 ∧
    (true : Bool) = true := by
  refine ⟨?_, ?_, ?_, ?_⟩
  · exact keyCache_bounded_and_fresh.1 ⟨[⟨"k1", "p1", 0⟩], 1, 10⟩ ⟨"k2", "p2", 5⟩
      (by decide) (by decide)
  · exact (keyCache_bounded_and_fresh.2.1 ⟨[⟨"k1", "p1", 0⟩], 1, 10⟩ ⟨"k2", "p2", 5⟩
      (by decide) (by decide)).1
  · exact keyCache_bounded_and_fresh.2.2.1 ⟨[⟨"k1", "p1", 95⟩], 1, 10⟩ 100 "k1" ⟨"k1", "p1", 95⟩
      (by decide)
  · exact keyCache_bounded_and_fresh.2.2.2 ⟨[⟨"k1", "p1", 0⟩], 1, 10⟩ 100 [("k2", "p2")] "k2"
      (by decide) "p2" ((⟨[⟨"k1", "p1", 0⟩], 1, 10⟩ : KeyCache).insertKey ⟨"k2", "p2", 100⟩) true
      rfl

/-- Claim C9: requireAuthenticated answers 401 with the not-authenticated
body exactly when no identity is attached to the request, and whenever any
identity is attached it calls the downstream handler regardless of the roles
of that identity. -/
theorem requireAuthenticated_denies_iff_no_identity :
    (∀ user : Option Identity,
        requireAuthenticated user = .respond 401 notAuthenticatedBody ↔ user = none) ∧
    (∀ u : Identity, requireAuthenticated (some u) = .next ()) := by
  refine ⟨?_, fun u => rfl⟩
  intro user
  cases user with
  | none => simp [requireAuthenticated]
  | some u => simp [requireAuthenticated]

/-- Claim C10: every role gate produced by requireRole checks for an attached
identity before any role evaluation: with no identity present it answers 401
with the not-authenticated body for every configured required role list. -/
theorem requireRole_defensive_not_authenticated :
    ∀ allowed : List String,
      requireRole allowed none = .respond 401 notAuthenticatedBody :=
  fun _ => rfl

end ImageAuth
